import Mathlib

/-!
Shallow embedding of the Freedify provider-normalization services
(`app/jamendo_service.py`, `app/listenbrainz_service.py`,
`app/setlist_service.py`) and proofs about the claims on their behavior.

Python strings are modelled as Lean `String` (lists of characters);
Python dictionaries with known keys are modelled as structures whose
optional keys are `Option` fields; `dict.get(k, d)` becomes `Option.getD`;
Python truthiness of a string/integer field is spelled out explicitly.
HTTP fetches are modelled as oracle inputs of type
`Except PyErr (HttpResp α)`: `Except.error` is a raised transport error
(timeout, connection failure), a non-2xx `status` models a response on
which `raise_for_status()` raises, and an `Except.error` body models a
payload on which `.json()` raises.
-/

namespace Freedify

/-! Python string primitives -/

/-- Whitespace characters stripped by Python `str.strip()` and matched by `\s`. -/
def pyIsSpace (c : Char) : Bool :=
  c == ' ' || c == '\t' || c == '\n' || c == '\r' || c == '\x0b' || c == '\x0c'

/-- Drop characters satisfying `p` from both ends of a list, as Python
`str.strip(chars)` does for the character class `p`. -/
def stripWhile (p : Char → Bool) (l : List Char) : List Char :=
  ((l.dropWhile p).reverse.dropWhile p).reverse

/-- Python `s.strip()` (no argument: strips whitespace). -/
def pyStrip (s : String) : String :=
  String.mk (stripWhile pyIsSpace s.data)

/-- Python `s.strip(", ")`: strips any mix of commas and spaces from both ends. -/
def pyStripCommaSpace (s : String) : String :=
  String.mk (stripWhile (fun c => c == ',' || c == ' ') s.data)

/-- Fuel-driven worker for `replaceAll`.  At each step it either replaces a
leftmost occurrence of `pat` (consuming `pat.length ≥ 1` characters) or moves
one character forward, exactly like Python `str.replace` with a non-empty
pattern.  The fuel `s.length` supplied by `replaceAll` is always sufficient. -/
def replaceAllAux (pat rep : List Char) : Nat → List Char → List Char
  | 0, s => s
  | _ + 1, [] => []
  | fuel + 1, c :: rest =>
    if !pat.isEmpty && pat.isPrefixOf (c :: rest) then
      rep ++ replaceAllAux pat rep fuel ((c :: rest).drop pat.length)
    else
      c :: replaceAllAux pat rep fuel rest

/-- Replace every (leftmost-first, non-overlapping) occurrence of `pat` by
`rep`, as Python `str.replace` does for a non-empty pattern. -/
def replaceAll (s pat rep : List Char) : List Char :=
  replaceAllAux pat rep s.length s

/-- Python `s.replace(pat, rep)` (non-empty `pat`). -/
def pyReplace (s pat rep : String) : String :=
  String.mk (replaceAll s.data pat.data rep.data)

/-- Whether `pat` occurs as a contiguous substring of `s`. -/
def hasSub (pat : List Char) : List Char → Bool
  | [] => pat.isEmpty
  | c :: rest => pat.isPrefixOf (c :: rest) || hasSub pat rest

/-- Python `s.lower()` (ASCII case folding, which is all the sources need). -/
def pyLower (s : String) : String :=
  String.mk (s.data.map Char.toLower)

/-- Python `s.startswith(p)`. -/
def pyStartsWith (s p : String) : Bool :=
  p.data.isPrefixOf s.data

/-- Python truthiness of an optional string (`None` and `""` are falsy). -/
def truthyStr : Option String → Bool
  | none => false
  | some s => !(s == "")

/-- Python truthiness of an optional integer (`None` and `0` are falsy). -/
def truthyNat : Option Nat → Bool
  | none => false
  | some n => !(n == 0)

/-- Python `x or d` for an optional string `x` (first truthy value wins). -/
def pyOrStr (o : Option String) (d : String) : String :=
  match o with
  | none => d
  | some s => if s == "" then d else s

/-- Numeric value of a list of decimal digit characters. -/
def natOfDigits (l : List Char) : Nat :=
  l.foldl (fun acc c => acc * 10 + (c.toNat - '0'.toNat)) 0

/-- Python `f"{n:02d}"`: decimal, zero-padded on the left to width 2. -/
def zeroPad2 (n : Nat) : String :=
  if n < 10 then "0" ++ toString n else toString n

/-! Modelled transport layer -/

/-- A raised Python exception from the HTTP layer: a transport error
(timeout/connection), an `HTTPStatusError` from `raise_for_status()`, or a
JSON decode error from `.json()`. -/
inductive PyErr where
  | timeout
  | httpStatus (code : Nat)
  | malformed
deriving DecidableEq

/-- An HTTP response that arrived: its status code and the outcome of
decoding its body as JSON. -/
structure HttpResp (α : Type) where
  status : Nat
  body : Except PyErr α

/-! Jamendo service (`app/jamendo_service.py`) -/

/-- A raw Jamendo result item (track/album/artist dictionaries are duck-typed
in the source; `id` is accessed with `item['id']`, so it is a required field,
all others via `.get`). -/
structure JamendoRaw where
  id : String
  name : Option String
  artist_name : Option String
  artist_id : Option String
  album_name : Option String
  album_id : Option String
  album_image : Option String
  image : Option String
  website : Option String
  duration : Option Nat
  audiodownload : Option String
  audio : Option String
  license_ccurl : Option String
  releasedate : Option String
deriving DecidableEq

/-- Body shape of a Jamendo API response: `data.get("results", [])`. -/
structure JamendoData where
  results : List JamendoRaw
deriving DecidableEq

/-- `JamendoService._format_duration`: format ms to `MM:SS`. -/
def format_duration (ms : Nat) : String :=
  let seconds := ms / 1000
  let minutes := seconds / 60
  let secs := seconds % 60
  toString minutes ++ ":" ++ zeroPad2 secs

/-- Canonical track produced by `JamendoService._format_track`. -/
structure JTrack where
  id : String
  type : String
  name : String
  artists : String
  artist_names : List String
  artist_id : String
  album : String
  album_id : String
  album_art : String
  duration_ms : Nat
  duration : String
  audio_url : String
  license : String
  release_date : String
  source : String
  format : String
deriving DecidableEq

/-- `JamendoService._format_track`. -/
def format_track (item : JamendoRaw) : JTrack :=
  let audio_url := pyOrStr item.audiodownload (pyOrStr item.audio "")
  { id := "jm_" ++ item.id
    type := "track"
    name := item.name.getD ""
    artists := item.artist_name.getD ""
    artist_names := [item.artist_name.getD ""]
    artist_id := "jm_artist_" ++ item.artist_id.getD ""
    album := item.album_name.getD ""
    album_id := "jm_" ++ item.album_id.getD ""
    album_art := pyOrStr item.album_image (pyOrStr item.image "")
    duration_ms := item.duration.getD 0 * 1000
    duration := format_duration (item.duration.getD 0 * 1000)
    audio_url := audio_url
    license := item.license_ccurl.getD ""
    release_date := item.releasedate.getD ""
    source := "jamendo"
    format := if hasSub "flac".data (pyLower audio_url).data then "flac" else "mp3" }

/-- Canonical album produced by `JamendoService._format_album`. -/
structure JAlbum where
  id : String
  type : String
  name : String
  artists : String
  artist_id : String
  album_art : String
  release_date : String
  total_tracks : Nat
  source : String
deriving DecidableEq

/-- `JamendoService._format_album`. -/
def format_album (item : JamendoRaw) : JAlbum :=
  { id := "jm_" ++ item.id
    type := "album"
    name := item.name.getD ""
    artists := item.artist_name.getD ""
    artist_id := "jm_artist_" ++ item.artist_id.getD ""
    album_art := pyOrStr item.image ""
    release_date := item.releasedate.getD ""
    total_tracks := 0
    source := "jamendo" }

/-- Canonical artist produced by `JamendoService._format_artist`. -/
structure JArtist where
  id : String
  type : String
  name : String
  image : String
  website : String
  source : String
deriving DecidableEq

/-- `JamendoService._format_artist`. -/
def format_artist (item : JamendoRaw) : JArtist :=
  { id := "jm_artist_" ++ item.id
    type := "artist"
    name := item.name.getD ""
    image := pyOrStr item.image ""
    website := item.website.getD ""
    source := "jamendo" }

/-- `JamendoService._api_request`: performs the GET (whose outcome is the
oracle input `resp`), calls `raise_for_status()` (raises unless the status is
2xx) and decodes the JSON body (which may itself raise).  There is no
exception handler here: every failure propagates to the caller. -/
def api_request (resp : Except PyErr (HttpResp JamendoData)) : Except PyErr JamendoData :=
  match resp with
  | .error e => .error e
  | .ok r => if 200 ≤ r.status ∧ r.status ≤ 299 then r.body else .error (.httpStatus r.status)

/-- `JamendoService.search_tracks`: no try/except around `_api_request`. -/
def search_tracks (resp : Except PyErr (HttpResp JamendoData)) : Except PyErr (List JTrack) :=
  (api_request resp).map (fun data => data.results.map format_track)

/-- `JamendoService.search_albums`: no try/except around `_api_request`. -/
def search_albums (resp : Except PyErr (HttpResp JamendoData)) : Except PyErr (List JAlbum) :=
  (api_request resp).map (fun data => data.results.map format_album)

/-- `JamendoService.search_artists`: no try/except around `_api_request`. -/
def search_artists (resp : Except PyErr (HttpResp JamendoData)) : Except PyErr (List JArtist) :=
  (api_request resp).map (fun data => data.results.map format_artist)

/-- The id-namespacing applied by `_format_track` (`f"jm_{item['id']}"`). -/
def jmTrackId (raw : String) : String := "jm_" ++ raw

/-- The id-namespacing applied by `_format_artist` (`f"jm_artist_{item['id']}"`). -/
def jmArtistId (raw : String) : String := "jm_artist_" ++ raw

/-- The namespace strip in `JamendoService.get_track` (and `get_album`,
`get_stream_url`): `track_id.replace("jm_", "")`. -/
def get_track_clean_id (track_id : String) : String :=
  pyReplace track_id "jm_" ""

/-- The namespace strip in `JamendoService.get_artist`:
`artist_id.replace("jm_artist_", "").replace("jm_", "")`. -/
def get_artist_clean_id (artist_id : String) : String :=
  pyReplace (pyReplace artist_id "jm_artist_" "") "jm_" ""

/-! ListenBrainz service (`app/listenbrainz_service.py`) -/

/-- The `track.get("artists", "")` value: Python duck-types it as either a
display string or a list of names. -/
inductive PyArtists where
  | str (s : String)
  | list (l : List String)
deriving DecidableEq

/-- The canonical-track dictionary consumed by `_format_track_payload`
(only the keys it reads). -/
structure TrackIn where
  name : Option String
  artists : PyArtists
  duration_ms : Option Nat
  album : Option String
  isrc : Option String
  track_number : Option Nat
deriving DecidableEq

/-- A JSON value inside the `additional_info` sub-object. -/
inductive AIVal where
  | s (v : String)
  | n (v : Nat)
deriving DecidableEq

/-- A JSON value inside the `track_metadata` object: a string, the JSON
`null` that Python `None` serializes to, or the `additional_info` object. -/
inductive MDVal where
  | str (v : String)
  | null
  | obj (l : List (String × AIVal))
deriving DecidableEq

/-- The submitted track payload: its `track_metadata` dictionary, modelled as
an association list so that presence/absence of a key is observable. -/
structure ListenTrack where
  track_metadata : List (String × MDVal)
deriving DecidableEq

/-- The `artist` join at the top of `_format_track_payload`. -/
def joinArtists : PyArtists → String
  | .str s => s
  | .list l => String.intercalate ", " l

/-- The `duration_ms` entry of `additional_info`: added only when the field
is truthy (`if duration_ms:`). -/
def durPart (t : TrackIn) : List (String × AIVal) :=
  match t.duration_ms with
  | some d => if d ≠ 0 then [("duration_ms", AIVal.n d)] else []
  | none => []

/-- The `release_name` entry of `additional_info`: added only when
`track.get("album")` is truthy. -/
def albPart (t : TrackIn) : List (String × AIVal) :=
  match t.album with
  | some a => if a ≠ "" then [("release_name", AIVal.s a)] else []
  | none => []

/-- The `isrc` entry of `additional_info`: added only when the field is
truthy and carries none of the synthetic cross-provider prefixes. -/
def isrcPart (t : TrackIn) : List (String × AIVal) :=
  match t.isrc with
  | some i =>
    if i ≠ "" ∧ pyStartsWith i "dz_" = false ∧ pyStartsWith i "ytm_" = false
        ∧ pyStartsWith i "LINK:" = false ∧ pyStartsWith i "pod_" = false then
      [("isrc", AIVal.s i)]
    else []
  | none => []

/-- The `tracknumber` entry of `additional_info`: added only when
`track.get("track_number")` is truthy. -/
def tnPart (t : TrackIn) : List (String × AIVal) :=
  match t.track_number with
  | some n => if n ≠ 0 then [("tracknumber", AIVal.n n)] else []
  | none => []

/-- The `additional_info` dictionary built by `_format_track_payload`, in
insertion order. -/
def addInfo (t : TrackIn) : List (String × AIVal) :=
  durPart t ++ albPart t ++ isrcPart t ++ tnPart t

/-- `ListenBrainzService._format_track_payload`.  Note the last line of the
source: `"additional_info": additional_info if additional_info else None` —
the key is always present; an empty dictionary is replaced by `None`
(serialized as JSON `null`), not removed. -/
def format_track_payload (t : TrackIn) : ListenTrack :=
  let info := addInfo t
  { track_metadata :=
      [("artist_name", MDVal.str (joinArtists t.artists)),
       ("track_name", MDVal.str (t.name.getD "Unknown")),
       ("additional_info", if info = [] then MDVal.null else MDVal.obj info)] }

/-- A full canonical track as returned by the registry lookup; the service
overwrites its `type` and `source` keys and leaves the rest untouched. -/
structure RecTrack where
  type : String
  source : String
  rest : List (String × String)
deriving DecidableEq

/-- Modelled from the spec: `musicbrainz_service.lookup_recording`, the
registry lookup that `get_recommendations` resolves each recording identifier
with, is not among the sources (src's `musicbrainz_service.py` does not
define it).  Per spec §4.3 it "resolves each sequentially to a full canonical
track via the registry lookup, skipping (not failing) any identifier that
resolves to nothing", i.e. it is an arbitrary resolution function from an
identifier to an optional canonical track, so it is modelled as a function
parameter of this type. -/
abbrev RegistryLookup : Type := String → Option RecTrack

/-- One entry of `payload.get("mbids", [])`; `rec.get("recording_mbid")`
may be absent. -/
structure LBEntry where
  recording_mbid : Option String
deriving DecidableEq

/-- `data.get("payload", {})` of the recommendations response. -/
structure LBPayload where
  mbids : List LBEntry
deriving DecidableEq

/-- Body shape of the recommendations response. -/
structure LBData where
  payload : LBPayload
deriving DecidableEq

/-- The tagging applied to each resolved track:
`track_data["type"] = "recommendation"; track_data["source"] = "listenbrainz"`. -/
def retag (t : RecTrack) : RecTrack :=
  { t with type := "recommendation", source := "listenbrainz" }

/-- The resolution loop of `get_recommendations`: `if not mbid: continue`,
look the identifier up, skip unresolved ones, tag and append resolved ones. -/
def recLoop (lookup : RegistryLookup) : List (Option String) → List RecTrack → List RecTrack
  | [], acc => acc
  | none :: rest, acc => recLoop lookup rest acc
  | some s :: rest, acc =>
    if s = "" then recLoop lookup rest acc
    else
      match lookup s with
      | none => recLoop lookup rest acc
      | some t => recLoop lookup rest (acc ++ [retag t])

/-- `ListenBrainzService.get_recommendations`: on any fetch failure or
non-200 status return `[]`; otherwise cap the identifier list at 15
(`payload.get("mbids", [])[:15]`) and resolve each in order. -/
def get_recommendations (lookup : RegistryLookup)
    (resp : Except PyErr (HttpResp LBData)) : List RecTrack :=
  match resp with
  | .error _ => []
  | .ok r =>
    if r.status ≠ 200 then []
    else
      match r.body with
      | .error _ => []
      | .ok data =>
        recLoop lookup ((data.payload.mbids.take 15).map (fun e => e.recording_mbid)) []

/-- The identifiers on which `get_recommendations` actually issues registry
lookups: the truthy `recording_mbid`s among the first 15 entries. -/
def issuedMbids (data : LBData) : List String :=
  (((data.payload.mbids.take 15).map (fun e => e.recording_mbid)).filterMap id).filter
    (fun s => !(s == ""))

/-! Setlist.fm service (`app/setlist_service.py`) -/

/-- The filter-parameter dictionary built by `search_setlists`: always the
page `p`, plus whichever of `artistName`, `date`, `year` the query
interpretation sets (`none` models an absent key). -/
structure SetlistParams where
  p : Nat
  artistName : Option String
  date : Option String
  year : Option String
deriving DecidableEq

/-- The `clean_query` helper inside `search_setlists`:
`q.replace(match_str, "").strip()`. -/
def cleanQuery (q m : String) : String :=
  pyStrip (pyReplace q m "")

/-- Python `\w` (word character) for the ASCII inputs at hand. -/
def isWordChar (c : Char) : Bool :=
  c.isAlphanum || c == '_'

/-- A `\b` word boundary holds before a word character at the current
position iff the preceding character (if any) is not a word character. -/
def boundaryOk : Option Char → Bool
  | none => true
  | some p => !isWordChar p

/-- Match of `(\d{4})-(\d{2})-(\d{2})` anchored at the current position. -/
def matchDateAt : List Char → Option (List Char)
  | a :: b :: c :: d :: h1 :: e :: f :: h2 :: g :: h :: _ =>
    if a.isDigit && b.isDigit && c.isDigit && d.isDigit && h1 == '-'
        && e.isDigit && f.isDigit && h2 == '-' && g.isDigit && h.isDigit then
      some [a, b, c, d, '-', e, f, '-', g, h]
    else none
  | _ => none

/-- `re.search` for pattern 1 (`YYYY-MM-DD`): leftmost match. -/
def scanDate : List Char → Option (List Char)
  | [] => none
  | c :: rest =>
    match matchDateAt (c :: rest) with
    | some g => some g
    | none => scanDate rest

/-- Match of `\b(19|20)\d{2}\b` anchored at the current position, given the
preceding character. -/
def matchYearAt (prev : Option Char) : List Char → Option (List Char)
  | a :: b :: c :: d :: rest =>
    if boundaryOk prev && ((a == '1' && b == '9') || (a == '2' && b == '0'))
        && c.isDigit && d.isDigit
        && (match rest with | [] => true | r :: _ => !isWordChar r) then
      some [a, b, c, d]
    else none
  | _ => none

/-- `re.search` for pattern 3 (bare year): leftmost match, tracking the
previous character for the word boundary. -/
def scanYearAux : Option Char → List Char → Option (List Char)
  | _, [] => none
  | prev, c :: rest =>
    match matchYearAt prev (c :: rest) with
    | some g => some g
    | none => scanYearAux (some c) rest

/-- The twelve three-letter month alternatives of pattern 2, in pattern order. -/
def monthNames : List (List Char) :=
  [['j','a','n'], ['f','e','b'], ['m','a','r'], ['a','p','r'], ['m','a','y'], ['j','u','n'],
   ['j','u','l'], ['a','u','g'], ['s','e','p'], ['o','c','t'], ['n','o','v'], ['d','e','c']]

/-- Case-insensitive match of the month alternation at the current position,
returning the three matched characters in their original case. -/
def monthAlt : List Char → Option (List Char)
  | a :: b :: c :: _ =>
    if monthNames.contains [a.toLower, b.toLower, c.toLower] then some [a, b, c] else none
  | _ => none

/-- Optional case-insensitive ordinal suffix `(?:st|nd|rd|th)?`. -/
def ordSuffix : List Char → Option (List Char × List Char)
  | a :: b :: t =>
    let low := [a.toLower, b.toLower]
    if low == ['s','t'] || low == ['n','d'] || low == ['r','d'] || low == ['t','h'] then
      some ([a, b], t)
    else none
  | _ => none

/-- The capture groups of a pattern-2 match: the whole matched span
(group 0), the month alternation (group 1), the day digits (group 2) and the
optional four year digits (group 3). -/
structure MonthGroups where
  g0 : List Char
  m3 : List Char
  day : List Char
  year : Option (List Char)
deriving DecidableEq

/-- Match of pattern 2,
`(?i)\b(jan|...|dec)[a-z]*\s+(\d{1,2})(?:st|nd|rd|th)?(?:,)?\s*(\d{4})?`,
anchored at the current position.  Greedy pieces never need to backtrack
here: `[a-z]*` is followed by `\s+`, `\s*` by `(\d{4})?`, and everything
after the day group is optional, so maximal munch is the regex semantics. -/
def matchMonthAt (prev : Option Char) (s : List Char) : Option MonthGroups :=
  if !boundaryOk prev then none
  else
    match monthAlt s with
    | none => none
    | some m3 =>
      let r1 := s.drop 3
      let letters := r1.takeWhile Char.isAlpha
      let r2 := r1.drop letters.length
      let sp1 := r2.takeWhile pyIsSpace
      if sp1.isEmpty then none
      else
        let r3 := r2.drop sp1.length
        match r3 with
        | [] => none
        | d1 :: t1 =>
          if !d1.isDigit then none
          else
            let dayRest : List Char × List Char :=
              match t1 with
              | d2 :: t2 => if d2.isDigit then ([d1, d2], t2) else ([d1], t1)
              | [] => ([d1], [])
            let ordRest : List Char × List Char :=
              match ordSuffix dayRest.2 with
              | some (o, t) => (o, t)
              | none => ([], dayRest.2)
            let commaRest : List Char × List Char :=
              match ordRest.2 with
              | ',' :: t => ([','], t)
              | _ => ([], ordRest.2)
            let sp2 := commaRest.2.takeWhile pyIsSpace
            let r7 := commaRest.2.drop sp2.length
            let yearOpt : Option (List Char) :=
              match r7 with
              | y1 :: y2 :: y3 :: y4 :: _ =>
                if y1.isDigit && y2.isDigit && y3.isDigit && y4.isDigit then
                  some [y1, y2, y3, y4]
                else none
              | _ => none
            some ⟨m3 ++ letters ++ sp1 ++ dayRest.1 ++ ordRest.1 ++ commaRest.1 ++ sp2
                    ++ yearOpt.getD [],
                  m3, dayRest.1, yearOpt⟩

/-- `re.search` for pattern 2: leftmost match, tracking the previous
character for the word boundary. -/
def scanMonthAux : Option Char → List Char → Option MonthGroups
  | _, [] => none
  | prev, c :: rest =>
    match matchMonthAt prev (c :: rest) with
    | some g => some g
    | none => scanMonthAux (some c) rest

/-- Month number of a (case-folded) three-letter abbreviation, as `%b` of
`datetime.strptime` resolves it. -/
def monthNum (m3 : List Char) : Option Nat :=
  match m3.map Char.toLower with
  | ['j','a','n'] => some 1
  | ['f','e','b'] => some 2
  | ['m','a','r'] => some 3
  | ['a','p','r'] => some 4
  | ['m','a','y'] => some 5
  | ['j','u','n'] => some 6
  | ['j','u','l'] => some 7
  | ['a','u','g'] => some 8
  | ['s','e','p'] => some 9
  | ['o','c','t'] => some 10
  | ['n','o','v'] => some 11
  | ['d','e','c'] => some 12
  | _ => none

/-- Gregorian leap-year rule used by `datetime`. -/
def leapYear (y : Nat) : Bool :=
  y % 4 == 0 && (!(y % 100 == 0) || y % 400 == 0)

/-- Days in a month, as `datetime` validates them. -/
def daysInMonth (m y : Nat) : Nat :=
  match m with
  | 1 => 31
  | 2 => if leapYear y then 29 else 28
  | 3 => 31
  | 4 => 30
  | 5 => 31
  | 6 => 30
  | 7 => 31
  | 8 => 31
  | 9 => 30
  | 10 => 31
  | 11 => 30
  | 12 => 31
  | _ => 31

/-- `datetime.strptime(f"{month} {day} {year}", "%b %d %Y")` restricted to the
inputs `search_setlists` builds: returns the month and day numbers, or `none`
(a raised `ValueError`) when the day is out of range for the month. -/
def strptimeBdY (m3 day : List Char) (yearNum : Nat) : Option (Nat × Nat) :=
  match monthNum m3 with
  | none => none
  | some m =>
    let d := natOfDigits day
    if 1 ≤ d ∧ d ≤ daysInMonth m yearNum then some (m, d) else none

/-- The year `search_setlists` hands to `strptime`: the matched year group,
or the dummy `'2000'` when the query carried none. -/
def dummyYearNum (o : Option (List Char)) : Nat :=
  match o with
  | some y => natOfDigits y
  | none => 2000

/-- The `params["date"]` string built from a month/day match:
`dt.strftime(f"{year_str}-%m-%d")` when the year group is present, else
`dt.strftime(f"{current_year}-%m-%d")`. -/
def dateFromMonth (nowYear : Nat) (yearOpt : Option (List Char)) (md : Nat × Nat) : String :=
  match yearOpt with
  | some y => String.mk y ++ "-" ++ zeroPad2 md.1 ++ "-" ++ zeroPad2 md.2
  | none => toString nowYear ++ "-" ++ zeroPad2 md.1 ++ "-" ++ zeroPad2 md.2

/-- The query-interpretation of `SetlistService.search_setlists` (lines
44–107): builds the filter-parameter dictionary from the free-text query.
`nowYear` models `datetime.now().year`, used when a month/day match carries
no year. -/
def searchParams (nowYear : Nat) (query : String) (page : Nat) : SetlistParams :=
  match scanDate query.data with
  | some g =>
    { p := page, date := some (String.mk g), year := none,
      artistName := some (cleanQuery query (String.mk g)) }
  | none =>
    match scanMonthAux none query.data with
    | some mg =>
      match strptimeBdY mg.m3 mg.day (dummyYearNum mg.year) with
      | some md =>
        { p := page,
          date := some (dateFromMonth nowYear mg.year md),
          year := none,
          artistName := some (cleanQuery query (String.mk mg.g0)) }
      | none =>
        match scanYearAux none query.data with
        | some yg =>
          { p := page, date := none, year := some (String.mk yg),
            artistName := some (cleanQuery query (String.mk yg)) }
        | none =>
          { p := page, date := none, year := none, artistName := some query }
    | none =>
      match scanYearAux none query.data with
      | some yg =>
        { p := page, date := none, year := some (String.mk yg),
          artistName := some (cleanQuery query (String.mk yg)) }
      | none =>
        { p := page, date := none, year := none, artistName := some query }

/-- A raw setlist.fm song entry (the keys `_format_setlist_detail` reads;
the nested `song.get("with", {}).get("name")` chains are collapsed into one
optional field each, which is observationally identical). -/
structure RawSong where
  name : Option String
  with_name : Option String
  cover_name : Option String
  info : Option String
deriving DecidableEq

/-- A raw setlist.fm set: optional display name, optional encore marker
(an integer in the provider payload, truthiness-tested), and its songs. -/
structure RawSet where
  name : Option String
  encore : Option Nat
  song : List RawSong
deriving DecidableEq

/-- Raw city dictionary of a venue. -/
structure RawCity where
  name : Option String
  stateCode : Option String
  countryCode : Option String
deriving DecidableEq

/-- Raw venue dictionary. -/
structure RawVenue where
  name : Option String
  city : Option RawCity
deriving DecidableEq

/-- Raw artist dictionary. -/
structure RawArtist where
  name : Option String
  mbid : Option String
deriving DecidableEq

/-- A raw setlist.fm setlist item (the keys the normalizers read;
`item.get("sets", {}).get("set", [])` is collapsed into `sets`). -/
structure RawSetlist where
  id : Option String
  artist : Option RawArtist
  venue : Option RawVenue
  eventDate : Option String
  sets : List RawSet
  url : Option String
deriving DecidableEq

/-- `datetime.strptime(event_date, "%d-%m-%Y")`: day (1–2 digits), dash,
month (1–2 digits), dash, exactly four year digits, end of string, with the
date valid; returns `(day, month, year)` or `none` for a raised error. -/
def parseEventDate (s : List Char) : Option (Nat × Nat × Nat) :=
  match s with
  | [] => none
  | a :: rest =>
    if !a.isDigit then none
    else
      let dayRest : List Char × List Char :=
        match rest with
        | b :: t => if b.isDigit then ([a, b], t) else ([a], rest)
        | [] => ([a], [])
      match dayRest.2 with
      | '-' :: r2 =>
        match r2 with
        | [] => none
        | m1 :: r3 =>
          if !m1.isDigit then none
          else
            let monRest : List Char × List Char :=
              match r3 with
              | m2 :: t => if m2.isDigit then ([m1, m2], t) else ([m1], r3)
              | [] => ([m1], [])
            match monRest.2 with
            | '-' :: y1 :: y2 :: y3 :: y4 :: r5 =>
              if y1.isDigit && y2.isDigit && y3.isDigit && y4.isDigit && r5.isEmpty then
                let d := natOfDigits dayRest.1
                let m := natOfDigits monRest.1
                let y := natOfDigits [y1, y2, y3, y4]
                if 1 ≤ m ∧ m ≤ 12 ∧ 1 ≤ d ∧ d ≤ daysInMonth m y ∧ 1 ≤ y then
                  some (d, m, y)
                else none
              else none
            | _ => none
      | _ => none

/-- Full month name, as `strftime("%B")` renders it. -/
def monthFullName (m : Nat) : String :=
  match m with
  | 1 => "January"
  | 2 => "February"
  | 3 => "March"
  | 4 => "April"
  | 5 => "May"
  | 6 => "June"
  | 7 => "July"
  | 8 => "August"
  | 9 => "September"
  | 10 => "October"
  | 11 => "November"
  | 12 => "December"
  | _ => ""

/-- A flattened setlist-detail track. -/
structure SDTrack where
  id : String
  name : String
  artists : String
  set_name : String
  with_info : Option String
  cover_info : Option String
  info : String
  duration : String
  type : String
  source : String
deriving DecidableEq

/-- The canonical setlist entity (summary fields always present; `tracks`
and the audio-routing keys are added by the detail normalizer, `none`
modelling an absent key). -/
structure FSetlist where
  id : String
  type : String
  name : String
  artists : String
  artist_mbid : String
  venue : String
  city : String
  date : String
  iso_date : String
  song_count : Nat
  setlist_id : String
  url : String
  source : String
  album_art : String
  total_tracks : Nat
  release_date : String
  tracks : List SDTrack
  audio_source : Option String
  audio_url : Option String
  audio_search : Option String
deriving DecidableEq

/-- `SetlistService._format_setlist` (summary normalizer). -/
def format_setlist (item : RawSetlist) : FSetlist :=
  let artist := item.artist
  let venue := item.venue
  let city := venue.bind (fun v => v.city)
  let event_date := item.eventDate.getD ""
  let parsed := parseEventDate event_date.data
  let formatted_date :=
    match parsed with
    | some dmy => monthFullName dmy.2.1 ++ " " ++ zeroPad2 dmy.1 ++ ", " ++ toString dmy.2.2
    | none => event_date
  let iso_date :=
    match parsed with
    | some dmy => toString dmy.2.2 ++ "-" ++ zeroPad2 dmy.2.1 ++ "-" ++ zeroPad2 dmy.1
    | none => ""
  let song_count := (item.sets.map (fun s => s.song.length)).sum
  { id := "setlist_" ++ item.id.getD ""
    type := "setlist"
    name := (artist.bind (fun a => a.name)).getD "Unknown" ++ " at "
              ++ (venue.bind (fun v => v.name)).getD "Unknown Venue"
    artists := (artist.bind (fun a => a.name)).getD ""
    artist_mbid := (artist.bind (fun a => a.mbid)).getD ""
    venue := (venue.bind (fun v => v.name)).getD ""
    city := pyStripCommaSpace ((city.bind (fun c => c.name)).getD "" ++ ", "
              ++ (city.bind (fun c => c.stateCode)).getD "" ++ " "
              ++ (city.bind (fun c => c.countryCode)).getD "")
    date := formatted_date
    iso_date := iso_date
    song_count := song_count
    setlist_id := item.id.getD ""
    url := item.url.getD ""
    source := "setlist.fm"
    album_art := "/static/setlist-icon.svg"
    total_tracks := song_count
    release_date := iso_date
    tracks := []
    audio_source := none
    audio_url := none
    audio_search := none }

/-- One flattened track of `_format_setlist_detail`; `n` is `len(tracks)` at
append time. -/
def mkSDTrack (sid artists sname : String) (n : Nat) (song : RawSong) : SDTrack :=
  { id := "setlist_song_" ++ sid ++ "_" ++ toString n
    name := song.name.getD "Unknown"
    artists := artists
    set_name := sname
    with_info := song.with_name
    cover_info := song.cover_name
    info := song.info.getD ""
    duration := ""
    type := "track"
    source := "setlist.fm" }

/-- The inner `for song in setlist_set.get("song", [])` loop. -/
def songsLoop (sid artists sname : String) : List RawSong → List SDTrack → List SDTrack
  | [], acc => acc
  | song :: rest, acc =>
    songsLoop sid artists sname rest (acc ++ [mkSDTrack sid artists sname acc.length song])

/-- The outer `for setlist_set in ...` loop of `_format_setlist_detail`,
carrying the `set_idx` counter and the growing `tracks` accumulator. -/
def detailLoop (sid artists : String) : List RawSet → Nat → List SDTrack → List SDTrack
  | [], _, acc => acc
  | st :: rest, idx, acc =>
    let sname :=
      if truthyNat st.encore then "Encore"
      else pyOrStr st.name ("Set " ++ toString (idx + 1))
    detailLoop sid artists rest (idx + 1) (songsLoop sid artists sname st.song acc)

/-- `SetlistService._format_setlist_detail`: extends the summary with the
flattened tracks, overwrites `type` with `"album"`, and routes the audio
source by a case-insensitive substring match of the artist against
`"phish"`. -/
def format_setlist_detail (item : RawSetlist) : FSetlist :=
  let base := format_setlist item
  let tracks := detailLoop base.setlist_id base.artists item.sets 0 []
  let phish := hasSub "phish".data (pyLower base.artists).data
  { base with
    tracks := tracks
    type := "album"
    audio_source := some (if phish then "phish.in" else "archive.org")
    audio_url := if phish then some ("https://phish.in/" ++ base.iso_date) else none
    audio_search := if phish then none else some (base.artists ++ " " ++ base.iso_date) }

/-- Body shape of the setlist search response: `data.get("setlist", [])`. -/
structure SetlistData where
  setlist : List RawSetlist
deriving DecidableEq

/-- `SetlistService.search_setlists`: short-circuits on a missing API key,
interprets the query into filter parameters, performs the fetch (the oracle
`fetch`, keyed by the parameters actually sent), returns `[]` on a 404,
raises on any other non-2xx status, decodes the body, and caps the result at
the first 20 setlists — with the whole body wrapped in `try/except` returning
`[]` on any raised error. -/
def search_setlists (apiKey : String) (nowYear : Nat)
    (fetch : SetlistParams → Except PyErr (HttpResp SetlistData))
    (query : String) (page : Nat) : List FSetlist :=
  if apiKey = "" then []
  else
    match fetch (searchParams nowYear query page) with
    | .error _ => []
    | .ok r =>
      if r.status = 404 then []
      else if r.status < 200 ∨ 299 < r.status then []
      else
        match r.body with
        | .error _ => []
        | .ok data => (data.setlist.take 20).map format_setlist

/-! Spec-side definitions (refinement targets, written from the spec's words) -/

/-- Spec §4.2 (setlist detail normalizer): the display name of the `i`-th
(0-based) set: "the set's own name, or `Set N` by 1-based position,
overridden to `Encore` if the set is flagged as an encore". -/
def specSetName (i : Nat) (s : RawSet) : String :=
  if truthyNat s.encore then "Encore"
  else
    match s.name with
    | some n => if n = "" then "Set " ++ toString (i + 1) else n
    | none => "Set " ++ toString (i + 1)

/-- Spec §4.2: the sequence of set display names carried by the flattened
track list, one per song, sets in order, each set's songs in order. -/
def specSetNames (sets : List RawSet) : List String :=
  (List.enumFrom 0 sets).flatMap (fun p => p.2.song.map (fun _ => specSetName p.1 p.2))

/-! Concrete inputs used by witnesses and counterexamples -/

/-- A track dictionary with none of the optional scrobble fields populated. -/
def emptyTrackIn : TrackIn :=
  { name := none, artists := .str "", duration_ms := none, album := none,
    isrc := none, track_number := none }

/-- A fully-populated track dictionary. -/
def fullTrackIn : TrackIn :=
  { name := some "Song", artists := .list ["A", "B"], duration_ms := some 200000,
    album := some "Alb", isrc := some "USUM71703861", track_number := some 5 }

/-- A recommendations payload with one resolvable identifier. -/
def lbData0 : LBData :=
  { payload := { mbids := [{ recording_mbid := some "mbid-1" }] } }

/-- A registry lookup resolving every identifier to one fixed track. -/
def lookup0 : RegistryLookup :=
  fun _ => some { type := "track", source := "musicbrainz", rest := [("name", "Song")] }

/-- The track `lookup0` yields after tagging. -/
def recTrack0 : RecTrack :=
  { type := "recommendation", source := "listenbrainz", rest := [("name", "Song")] }

/-! Helper lemmas about the Python string primitives -/

theorem isPrefixOf_append_self (p l : List Char) : p.isPrefixOf (p ++ l) = true := by
  induction p with
  | nil => simp [List.isPrefixOf]
  | cons a as ih => simp [List.isPrefixOf, ih]

theorem replaceAllAux_of_hasSub_false (pat rep : List Char) :
    ∀ (fuel : Nat) (s : List Char), hasSub pat s = false → replaceAllAux pat rep fuel s = s := by
  intro fuel
  induction fuel with
  | zero => intro s _; rfl
  | succ n ih =>
    intro s h
    cases s with
    | nil => rfl
    | cons c rest =>
      have h2 : pat.isPrefixOf (c :: rest) = false ∧ hasSub pat rest = false := by
        simpa [hasSub] using h
      simp [replaceAllAux, h2.1, ih rest h2.2]

theorem replaceAll_self_append (pat rep post : List Char) (hne : pat ≠ [])
    (h : hasSub pat post = false) : replaceAll (pat ++ post) pat rep = rep ++ post := by
  obtain ⟨p, ps, rfl⟩ : ∃ p ps, pat = p :: ps := by
    cases pat with
    | nil => exact absurd rfl hne
    | cons p ps => exact ⟨p, ps, rfl⟩
  have hpre : (p :: ps).isPrefixOf (p :: (ps ++ post)) = true := by
    rw [← List.cons_append]; exact isPrefixOf_append_self _ _
  show replaceAllAux (p :: ps) rep ((p :: ps) ++ post).length ((p :: ps) ++ post) = rep ++ post
  rw [List.cons_append, List.length_cons]
  rw [replaceAllAux]
  simp only [hpre, List.isEmpty_cons, Bool.not_false, Bool.true_and, if_true]
  rw [List.length_cons, List.drop_succ_cons, List.drop_left]
  rw [replaceAllAux_of_hasSub_false _ _ _ _ h]

theorem pyReplace_of_hasSub_false (s pat : String) (h : hasSub pat.data s.data = false) :
    pyReplace s pat "" = s := by
  unfold pyReplace replaceAll
  rw [replaceAllAux_of_hasSub_false pat.data "".data s.data.length s.data h]

theorem pyReplace_self_append (pat post : String) (hne : pat.data ≠ [])
    (h : hasSub pat.data post.data = false) : pyReplace (pat ++ post) pat "" = post := by
  unfold pyReplace
  have hdata : (pat ++ post).data = pat.data ++ post.data := rfl
  rw [hdata, replaceAll_self_append pat.data "".data post.data hne h]
  rfl

theorem dropWhile_head_false (p : Char → Bool) :
    ∀ (l : List Char) (c : Char) (t : List Char), l.dropWhile p = c :: t → p c = false := by
  intro l
  induction l with
  | nil => intro c t h; simp [List.dropWhile] at h
  | cons a as ih =>
    intro c t h
    cases hp : p a with
    | true => exact ih c t (by simpa [List.dropWhile_cons, hp] using h)
    | false =>
      have h2 : a = c ∧ as = t := by simpa [List.dropWhile_cons, hp] using h
      rw [← h2.1]; exact hp

theorem dropWhile_of_head_false (p : Char → Bool) (c : Char) (t : List Char)
    (h : p c = false) : (c :: t).dropWhile p = c :: t := by
  simp [List.dropWhile_cons, h]

theorem dropWhile_dropWhile (p : Char → Bool) (l : List Char) :
    (l.dropWhile p).dropWhile p = l.dropWhile p := by
  cases h : l.dropWhile p with
  | nil => rfl
  | cons c t => exact dropWhile_of_head_false p c t (dropWhile_head_false p l c t h)

theorem dropWhile_getLastQ (p : Char → Bool) :
    ∀ l : List Char, l.dropWhile p ≠ [] → (l.dropWhile p).getLast? = l.getLast? := by
  intro l
  induction l with
  | nil => intro h; exact absurd rfl h
  | cons a as ih =>
    intro h
    cases hp : p a with
    | false => rw [dropWhile_of_head_false p a as hp]
    | true =>
      have hdw : (a :: as).dropWhile p = as.dropWhile p := by simp [List.dropWhile_cons, hp]
      rw [hdw] at h ⊢
      rw [ih h]
      have has : as ≠ [] := by
        intro he; rw [he] at h; simp [List.dropWhile] at h
      cases as with
      | nil => exact absurd rfl has
      | cons b bs => simp [List.getLast?_cons_cons]

theorem stripWhile_idem (p : Char → Bool) (l : List Char) :
    stripWhile p (stripWhile p l) = stripWhile p l := by
  unfold stripWhile
  set x := l.dropWhile p with hx
  set y := x.reverse.dropWhile p with hy
  have h1 : y.reverse.dropWhile p = y.reverse := by
    cases hyr : y.reverse with
    | nil => rfl
    | cons c t =>
      apply dropWhile_of_head_false
      have hy_ne : y ≠ [] := by
        intro he; rw [he] at hyr; simp at hyr
      have hc : y.getLast? = some c := by
        rw [← List.head?_reverse, hyr]; rfl
      have h2 : y.getLast? = x.head? := by
        rw [hy, dropWhile_getLastQ p x.reverse (by rw [← hy]; exact hy_ne),
          List.getLast?_reverse]
      rw [h2] at hc
      cases hx2 : x with
      | nil => rw [hx2] at hc; simp at hc
      | cons d t2 =>
        have hd : d = c := by rw [hx2] at hc; simpa using hc
        subst hd
        exact dropWhile_head_false p l d t2 (by rw [← hx2, hx])
  rw [h1, List.reverse_reverse, hy, dropWhile_dropWhile]

theorem pyStrip_idem (s : String) : pyStrip (pyStrip s) = pyStrip s := by
  simp [pyStrip, stripWhile_idem]

/-! Helper lemmas about the service loops -/

theorem recLoop_eq (lookup : RegistryLookup) :
    ∀ (ms : List (Option String)) (acc : List RecTrack),
      recLoop lookup ms acc
        = acc ++ ((ms.filterMap id).filter (fun s => !(s == ""))).filterMap
            (fun m => (lookup m).map retag) := by
  intro ms
  induction ms with
  | nil => intro acc; simp [recLoop]
  | cons m rest ih =>
    intro acc
    cases m with
    | none => simp [recLoop, ih]
    | some s =>
      by_cases hs : s = ""
      · subst hs; simp [recLoop, ih]
      · cases hl : lookup s with
        | none => simp [recLoop, hs, hl, ih]
        | some t => simp [recLoop, hs, hl, ih]

theorem songsLoop_names (sid artists sname : String) :
    ∀ (songs : List RawSong) (acc : List SDTrack),
      (songsLoop sid artists sname songs acc).map (fun t => t.set_name)
        = acc.map (fun t => t.set_name) ++ songs.map (fun _ => sname) := by
  intro songs
  induction songs with
  | nil => intro acc; simp [songsLoop]
  | cons s rest ih =>
    intro acc
    rw [songsLoop, ih]
    simp [mkSDTrack]

theorem detailLoop_names (sid artists : String) :
    ∀ (sets : List RawSet) (idx : Nat) (acc : List SDTrack),
      (detailLoop sid artists sets idx acc).map (fun t => t.set_name)
        = acc.map (fun t => t.set_name)
          ++ (List.enumFrom idx sets).flatMap
              (fun pr => pr.2.song.map (fun _ => specSetName pr.1 pr.2)) := by
  intro sets
  induction sets with
  | nil => intro idx acc; simp [detailLoop, List.enumFrom]
  | cons st rest ih =>
    intro idx acc
    rw [detailLoop, ih, songsLoop_names]
    have hname : (if truthyNat st.encore then "Encore"
        else pyOrStr st.name ("Set " ++ toString (idx + 1))) = specSetName idx st := by
      cases hn : st.name with
      | none => simp [specSetName, pyOrStr, hn]
      | some n =>
        by_cases he : n = "" <;> simp [specSetName, pyOrStr, hn, he]
    rw [hname]
    simp [List.enumFrom, List.append_assoc]

theorem mem_durPart (t : TrackIn) (k : String) (v : AIVal) (h : (k, v) ∈ durPart t) :
    k = "duration_ms" ∧ ∃ d, t.duration_ms = some d ∧ d ≠ 0 ∧ v = AIVal.n d := by
  unfold durPart at h
  cases hd : t.duration_ms with
  | none => rw [hd] at h; simp at h
  | some d =>
    rw [hd] at h
    by_cases hz : d ≠ 0
    · simp [hz] at h
      exact ⟨h.1, d, rfl, hz, h.2⟩
    · simp [hz] at h

theorem mem_albPart (t : TrackIn) (k : String) (v : AIVal) (h : (k, v) ∈ albPart t) :
    k = "release_name" ∧ ∃ a, t.album = some a ∧ a ≠ "" ∧ v = AIVal.s a := by
  unfold albPart at h
  cases ha : t.album with
  | none => rw [ha] at h; simp at h
  | some a =>
    rw [ha] at h
    by_cases hz : a ≠ ""
    · simp [hz] at h
      exact ⟨h.1, a, rfl, hz, h.2⟩
    · simp [hz] at h

theorem mem_isrcPart (t : TrackIn) (k : String) (v : AIVal) (h : (k, v) ∈ isrcPart t) :
    k = "isrc" ∧ ∃ i, t.isrc = some i ∧ i ≠ "" ∧ pyStartsWith i "dz_" = false
      ∧ pyStartsWith i "ytm_" = false ∧ pyStartsWith i "LINK:" = false
      ∧ pyStartsWith i "pod_" = false ∧ v = AIVal.s i := by
  unfold isrcPart at h
  cases hi : t.isrc with
  | none => rw [hi] at h; simp at h
  | some i =>
    rw [hi] at h
    by_cases hc : i ≠ "" ∧ pyStartsWith i "dz_" = false ∧ pyStartsWith i "ytm_" = false
        ∧ pyStartsWith i "LINK:" = false ∧ pyStartsWith i "pod_" = false
    · simp [hc.1, hc.2.1, hc.2.2.1, hc.2.2.2.1, hc.2.2.2.2] at h
      exact ⟨h.1, i, rfl, hc.1, hc.2.1, hc.2.2.1, hc.2.2.2.1, hc.2.2.2.2, h.2⟩
    · simp [hc] at h

theorem mem_tnPart (t : TrackIn) (k : String) (v : AIVal) (h : (k, v) ∈ tnPart t) :
    k = "tracknumber" ∧ ∃ n, t.track_number = some n ∧ n ≠ 0 ∧ v = AIVal.n n := by
  unfold tnPart at h
  cases hn : t.track_number with
  | none => rw [hn] at h; simp at h
  | some n =>
    rw [hn] at h
    by_cases hz : n ≠ 0
    · simp [hz] at h
      exact ⟨h.1, n, rfl, hz, h.2⟩
    · simp [hz] at h

theorem pad2_len : ∀ s : Fin 60, (zeroPad2 s.val).length = 2 := by decide

/-! Claim theorems -/

/-- C8: for every non-negative `duration_ms`, the derived duration string is
`floor(ms/1000/60)`, a colon, and `floor(ms/1000) mod 60` zero-padded to two
digits; `0` yields `"0:00"`; and every normalized catalog track's `duration`
string is consistent with its `duration_ms` under this formula. -/
theorem duration_string_formula :
    format_duration 0 = "0:00"
  ∧ (∀ ms : Nat, format_duration ms
        = toString (ms / 1000 / 60) ++ ":" ++ zeroPad2 (ms / 1000 % 60)
      ∧ (zeroPad2 (ms / 1000 % 60)).length = 2)
  ∧ (∀ item : JamendoRaw,
        (format_track item).duration = format_duration ((format_track item).duration_ms)) := by
  refine ⟨by decide, fun ms => ⟨rfl, ?_⟩, fun item => rfl⟩
  have h : ms / 1000 % 60 < 60 := Nat.mod_lt _ (by decide)
  exact pad2_len ⟨ms / 1000 % 60, h⟩

/-- C10: the summary normalizer types every setlist as `"setlist"`, and the
detail normalizer overwrites the type with `"album"`. -/
theorem setlist_detail_album_type :
    ∀ item : RawSetlist,
      (format_setlist item).type = "setlist" ∧ (format_setlist_detail item).type = "album" :=
  fun _ => ⟨rfl, rfl⟩

/-- C7: in setlist detail normalization the flattened tracks carry, song by
song and set by set in order, exactly the spec's display names: the set's own
(truthy) name, `"Set N"` by 1-based position when the name is absent or
empty, overridden to `"Encore"` whenever the set is flagged as an encore,
even when a non-empty name is also present. -/
theorem encore_set_name_wins :
    ∀ item : RawSetlist,
      ((format_setlist_detail item).tracks).map (fun t => t.set_name)
        = specSetNames item.sets := by
  intro item
  have h : (format_setlist_detail item).tracks
      = detailLoop (format_setlist item).setlist_id (format_setlist item).artists
          item.sets 0 [] := rfl
  rw [h, detailLoop_names]
  simp [specSetNames]

/-- C6: the Query Interpreter maps the four example queries to exactly the
stated filter sets (for any current year, which none of them consults). -/
theorem query_interpreter_examples :
    ∀ nowYear : Nat,
      searchParams nowYear "Phish 2023" 1
        = { p := 1, artistName := some "Phish", date := none, year := some "2023" }
    ∧ searchParams nowYear "Pearl Jam 1991-09-20" 1
        = { p := 1, artistName := some "Pearl Jam", date := some "1991-09-20", year := none }
    ∧ searchParams nowYear "Dead December 31 1977" 1
        = { p := 1, artistName := some "Dead", date := some "1977-12-31", year := none }
    ∧ searchParams nowYear "Grateful Dead" 1
        = { p := 1, artistName := some "Grateful Dead", date := none, year := none } :=
  fun _ => ⟨rfl, rfl, rfl, rfl⟩


/-- C1 counterexample: when the underlying request raises (here a timeout),
Jamendo `search_tracks` does not return an empty sequence — the exception
propagates to the caller. -/
theorem jamendo_search_error_not_swallowed :
    search_tracks (Except.error PyErr.timeout) = Except.error PyErr.timeout
  ∧ search_tracks (Except.error PyErr.timeout) ≠ Except.ok [] :=
  ⟨rfl, fun h => Except.noConfusion h⟩

/-- C1 (amended): a provider failure (raised request, non-2xx status, or
malformed payload) makes the setlist search operation return `[]` without
raising, but the Jamendo search operations (`search_tracks`,
`search_albums`, `search_artists`) have no exception handler and propagate
the underlying failure to the caller instead of returning `[]`. -/
theorem search_failure_behavior :
    (∀ e : PyErr,
        search_tracks (Except.error e) = Except.error e
      ∧ search_albums (Except.error e) = Except.error e
      ∧ search_artists (Except.error e) = Except.error e)
  ∧ (∀ (st : Nat) (body : Except PyErr JamendoData), st < 200 ∨ 299 < st →
        search_tracks (Except.ok ⟨st, body⟩) = Except.error (PyErr.httpStatus st))
  ∧ (∀ e : PyErr, search_tracks (Except.ok ⟨200, Except.error e⟩) = Except.error e)
  ∧ (∀ (apiKey : String) (nowYear : Nat) (q : String) (page : Nat) (e : PyErr),
        search_setlists apiKey nowYear (fun _ => Except.error e) q page = [])
  ∧ (∀ (apiKey : String) (nowYear : Nat) (q : String) (page : Nat) (st : Nat)
        (body : Except PyErr SetlistData), st < 200 ∨ 299 < st →
        search_setlists apiKey nowYear (fun _ => Except.ok ⟨st, body⟩) q page = [])
  ∧ (∀ (apiKey : String) (nowYear : Nat) (q : String) (page : Nat) (st : Nat) (e : PyErr),
        search_setlists apiKey nowYear (fun _ => Except.ok ⟨st, Except.error e⟩) q page
          = []) := by
  refine ⟨fun e => ⟨rfl, rfl, rfl⟩, ?_, ?_, ?_, ?_, ?_⟩
  · intro st body h
    show Except.map (fun data : JamendoData => data.results.map format_track)
      (if 200 ≤ st ∧ st ≤ 299 then body else Except.error (PyErr.httpStatus st))
        = Except.error (PyErr.httpStatus st)
    rw [if_neg (by omega : ¬ (200 ≤ st ∧ st ≤ 299))]
    rfl
  · intro e
    show Except.map (fun data : JamendoData => data.results.map format_track)
      (if 200 ≤ 200 ∧ 200 ≤ 299 then (Except.error e : Except PyErr JamendoData)
        else Except.error (PyErr.httpStatus 200))
        = Except.error e
    rw [if_pos (by omega : 200 ≤ 200 ∧ 200 ≤ 299)]
    rfl
  · intro apiKey nowYear q page e
    unfold search_setlists
    split
    · rfl
    · rfl
  · intro apiKey nowYear q page st body h
    unfold search_setlists
    split
    · rfl
    · show (if st = 404 then []
        else if st < 200 ∨ 299 < st then []
        else match body with
          | .error _ => ([] : List FSetlist)
          | .ok data => (data.setlist.take 20).map format_setlist) = []
      by_cases h404 : st = 404
      · rw [if_pos h404]
      · rw [if_neg h404, if_pos h]
  · intro apiKey nowYear q page st e
    unfold search_setlists
    split
    · rfl
    · show (if st = 404 then []
        else if st < 200 ∨ 299 < st then []
        else match (Except.error e : Except PyErr SetlistData) with
          | .error _ => ([] : List FSetlist)
          | .ok data => (data.setlist.take 20).map format_setlist) = []
      by_cases h404 : st = 404
      · rw [if_pos h404]
      · rw [if_neg h404]
        by_cases h2 : st < 200 ∨ 299 < st
        · rw [if_pos h2]
        · rw [if_neg h2]

/-- C1 witness: the amended behavior at concrete inputs — a 500 response
makes Jamendo `search_tracks` propagate an `HTTPStatusError`, and makes the
setlist search return `[]`. -/
theorem search_failure_behavior_witness :
    search_tracks (Except.ok ⟨500, Except.ok ⟨[]⟩⟩) = Except.error (PyErr.httpStatus 500)
  ∧ search_setlists "k" 0 (fun _ => Except.ok ⟨500, Except.ok ⟨[]⟩⟩) "q" 1 = [] :=
  ⟨search_failure_behavior.2.1 500 (Except.ok ⟨[]⟩) (by omega),
   search_failure_behavior.2.2.2.2.1 "k" 0 "q" 1 500 (Except.ok ⟨[]⟩) (by omega)⟩

/-- C2: on a successful recommendations response, `get_recommendations`
issues registry lookups exactly on the truthy identifiers among the first 15
entries (so never more than 15 lookups), skips identifiers that resolve to
nothing, and every returned entry is tagged with type `"recommendation"` and
source `"listenbrainz"`. -/
theorem recommendations_bounded_tagged :
    ∀ (lookup : RegistryLookup) (data : LBData),
      get_recommendations lookup (Except.ok ⟨200, Except.ok data⟩)
        = (issuedMbids data).filterMap (fun m => (lookup m).map retag)
    ∧ (issuedMbids data).length ≤ 15
    ∧ ∀ t, t ∈ get_recommendations lookup (Except.ok ⟨200, Except.ok data⟩) →
        t.type = "recommendation" ∧ t.source = "listenbrainz" := by
  intro lookup data
  have heq : get_recommendations lookup (Except.ok ⟨200, Except.ok data⟩)
      = (issuedMbids data).filterMap (fun m => (lookup m).map retag) := by
    show recLoop lookup ((data.payload.mbids.take 15).map (fun e => e.recording_mbid)) [] = _
    rw [recLoop_eq]
    simp [issuedMbids]
  refine ⟨heq, ?_, ?_⟩
  · calc (issuedMbids data).length
        ≤ (((data.payload.mbids.take 15).map (fun e => e.recording_mbid)).filterMap
            id).length := List.length_filter_le _ _
      _ ≤ ((data.payload.mbids.take 15).map (fun e => e.recording_mbid)).length :=
          List.length_filterMap_le _ _
      _ = (data.payload.mbids.take 15).length := List.length_map _ _
      _ ≤ 15 := List.length_take_le _ _
  · intro t ht
    rw [heq] at ht
    obtain ⟨m, _, hmap⟩ := List.mem_filterMap.mp ht
    obtain ⟨u, _, hu⟩ := Option.map_eq_some'.mp hmap
    rw [← hu]
    exact ⟨rfl, rfl⟩

/-- C2 witness: the theorem applied to a concrete lookup function and
payload, discharging the membership hypothesis at the one resolved track. -/
theorem recommendations_bounded_tagged_witness :
    recTrack0.type = "recommendation" ∧ recTrack0.source = "listenbrainz" :=
  (recommendations_bounded_tagged lookup0 lbData0).2.2 recTrack0 (by decide)

/-- C3 counterexample: `get_track`'s namespace strip removes a non-leading
occurrence of the tag (`"jm_1jm_2"` becomes `"12"`, not `"1jm_2"`), and for
the namespaced id built from the raw id `"1jm_2"`, strip-then-re-add does not
reproduce the original id. -/
theorem strip_removes_nonleading_occurrence :
    get_track_clean_id "jm_1jm_2" = "12"
  ∧ get_track_clean_id "jm_1jm_2" ≠ "1jm_2"
  ∧ jmTrackId (get_track_clean_id (jmTrackId "1jm_2")) ≠ jmTrackId "1jm_2" :=
  ⟨by decide, by decide, by decide⟩

/-- C3 (amended): the strips in `get_track` and `get_artist` use Python
`str.replace`, which removes every occurrence of the tag anywhere in the id,
not only a leading tag.  For every id that does not contain the tag as a
substring the strip is the identity (idempotent strip), and strip-then-re-add
round-trips exactly for ids whose raw part contains no occurrence of the
tag. -/
theorem strip_identity_and_roundtrip :
    (∀ s : String, hasSub "jm_".data s.data = false → get_track_clean_id s = s)
  ∧ (∀ raw : String, hasSub "jm_".data raw.data = false →
        get_track_clean_id (jmTrackId raw) = raw)
  ∧ (∀ s : String, hasSub "jm_artist_".data s.data = false →
        hasSub "jm_".data s.data = false → get_artist_clean_id s = s)
  ∧ (∀ raw : String, hasSub "jm_artist_".data raw.data = false →
        hasSub "jm_".data raw.data = false →
        get_artist_clean_id (jmArtistId raw) = raw) := by
  refine ⟨?_, ?_, ?_, ?_⟩
  · intro s h
    exact pyReplace_of_hasSub_false s "jm_" h
  · intro raw h
    exact pyReplace_self_append "jm_" raw (by decide) h
  · intro s h1 h2
    unfold get_artist_clean_id
    rw [pyReplace_of_hasSub_false s "jm_artist_" h1, pyReplace_of_hasSub_false s "jm_" h2]
  · intro raw h1 h2
    unfold get_artist_clean_id
    rw [show jmArtistId raw = "jm_artist_" ++ raw from rfl]
    rw [pyReplace_self_append "jm_artist_" raw (by decide) h1,
      pyReplace_of_hasSub_false raw "jm_" h2]

/-- C3 witness: the amended properties at concrete ids whose raw parts carry
no tag occurrence. -/
theorem strip_identity_and_roundtrip_witness :
    get_track_clean_id "abc" = "abc"
  ∧ get_track_clean_id (jmTrackId "42") = "42"
  ∧ get_artist_clean_id (jmArtistId "42") = "42" :=
  ⟨strip_identity_and_roundtrip.1 "abc" (by decide),
   strip_identity_and_roundtrip.2.1 "42" (by decide),
   strip_identity_and_roundtrip.2.2.2 "42" (by decide) (by decide)⟩

/-- C4 counterexample: for a track with none of the optional fields
populated, the submitted `track_metadata` still contains the
`additional_info` key, bound to `None`/`null` — the key is not omitted. -/
theorem additional_info_null_not_omitted :
    (format_track_payload emptyTrackIn).track_metadata.lookup "additional_info"
      = some MDVal.null
  ∧ ("additional_info", MDVal.null) ∈ (format_track_payload emptyTrackIn).track_metadata :=
  ⟨by decide, by decide⟩

/-- C4 (amended): `duration_ms`, `release_name`, `isrc` and `tracknumber`
appear in `additional_info` only when the corresponding track field is
present and truthy (and `isrc` only when additionally free of the synthetic
provider prefixes); when none are populated, the `additional_info` key is
still present and is sent as `None` (JSON `null`), not as an empty object
and not omitted. -/
theorem additional_info_fields_conditions :
    ∀ t : TrackIn,
      (format_track_payload t).track_metadata.lookup "additional_info"
        = some (if addInfo t = [] then MDVal.null else MDVal.obj (addInfo t))
    ∧ (∀ (k : String) (v : AIVal), (k, v) ∈ addInfo t →
        (k = "duration_ms" → ∃ d, t.duration_ms = some d ∧ d ≠ 0)
        ∧ (k = "release_name" → ∃ a, t.album = some a ∧ a ≠ "")
        ∧ (k = "isrc" → ∃ i, t.isrc = some i ∧ i ≠ "" ∧ pyStartsWith i "dz_" = false
            ∧ pyStartsWith i "ytm_" = false ∧ pyStartsWith i "LINK:" = false
            ∧ pyStartsWith i "pod_" = false)
        ∧ (k = "tracknumber" → ∃ n, t.track_number = some n ∧ n ≠ 0)) := by
  intro t
  constructor
  · rfl
  · intro k v hv
    unfold addInfo at hv
    rcases List.mem_append.mp hv with hv1 | hvTail
    · rcases List.mem_append.mp hv1 with hv2 | hvI
      · rcases List.mem_append.mp hv2 with hvD | hvA
        · obtain ⟨hk, d, hd, hz, _⟩ := mem_durPart t k v hvD
          subst hk
          exact ⟨fun _ => ⟨d, hd, hz⟩, fun hk2 => by simp at hk2,
            fun hk2 => by simp at hk2, fun hk2 => by simp at hk2⟩
        · obtain ⟨hk, a, ha, hz, _⟩ := mem_albPart t k v hvA
          subst hk
          exact ⟨fun hk2 => by simp at hk2, fun _ => ⟨a, ha, hz⟩,
            fun hk2 => by simp at hk2, fun hk2 => by simp at hk2⟩
      · obtain ⟨hk, i, hi, hz, h1, h2, h3, h4, _⟩ := mem_isrcPart t k v hvI
        subst hk
        exact ⟨fun hk2 => by simp at hk2, fun hk2 => by simp at hk2,
          fun _ => ⟨i, hi, hz, h1, h2, h3, h4⟩, fun hk2 => by simp at hk2⟩
    · obtain ⟨hk, n, hn, hz, _⟩ := mem_tnPart t k v hvTail
      subst hk
      exact ⟨fun hk2 => by simp at hk2, fun hk2 => by simp at hk2,
        fun hk2 => by simp at hk2, fun _ => ⟨n, hn, hz⟩⟩

/-- C4 witness: the amended theorem applied to a fully-populated track,
discharging the membership hypothesis at its `duration_ms` entry. -/
theorem additional_info_fields_conditions_witness :
    (format_track_payload fullTrackIn).track_metadata.lookup "additional_info"
      = some (if addInfo fullTrackIn = [] then MDVal.null else MDVal.obj (addInfo fullTrackIn))
  ∧ (∃ d, fullTrackIn.duration_ms = some d ∧ d ≠ 0) :=
  ⟨(additional_info_fields_conditions fullTrackIn).1,
   ((additional_info_fields_conditions fullTrackIn).2 "duration_ms" (AIVal.n 200000)
      (by decide)).1 rfl⟩

/-- C5 counterexample: a query with no date signal keeps its surrounding
whitespace (`" X "` is not trimmed), and for a date-only query the
artist-name key is not omitted — it is present with the empty string. -/
theorem artist_name_untrimmed_and_included :
    (searchParams 2025 " X " 1).artistName = some " X "
  ∧ " X " ≠ "X"
  ∧ (searchParams 2025 "1991-09-20" 1).artistName = some ""
  ∧ (searchParams 2025 "1991-09-20" 1).date = some "1991-09-20" :=
  ⟨by decide, by decide, by decide, by decide⟩

/-- C5 (amended): the artist-name key is always present in the produced
filter-parameter set, never omitted, even when empty; whenever a date or
year filter was produced the artist name is `strip()`-trimmed (a fixed point
of `pyStrip`), but when no date signal was found the raw query is used
untrimmed. -/
theorem artist_name_always_included :
    ∀ (nowYear : Nat) (query : String) (page : Nat),
      ((searchParams nowYear query page).artistName).isSome = true
    ∧ (∀ s, (searchParams nowYear query page).artistName = some s →
        ((searchParams nowYear query page).date ≠ none
          ∨ (searchParams nowYear query page).year ≠ none) →
        pyStrip s = s) := by
  intro nowYear query page
  cases h1 : scanDate query.data with
  | some g =>
    have hrec : searchParams nowYear query page
        = { p := page, date := some (String.mk g), year := none,
            artistName := some (cleanQuery query (String.mk g)) } := by
      simp [searchParams, h1]
    rw [hrec]
    refine ⟨rfl, ?_⟩
    intro s hs _
    obtain rfl : cleanQuery query (String.mk g) = s := Option.some.inj hs
    exact pyStrip_idem _
  | none =>
    cases h2 : scanMonthAux none query.data with
    | some mg =>
      cases h3 : strptimeBdY mg.m3 mg.day (dummyYearNum mg.year) with
      | some md =>
        have hrec : searchParams nowYear query page
            = { p := page, date := some (dateFromMonth nowYear mg.year md), year := none,
                artistName := some (cleanQuery query (String.mk mg.g0)) } := by
          simp [searchParams, h1, h2, h3]
        rw [hrec]
        refine ⟨rfl, ?_⟩
        intro s hs _
        obtain rfl : cleanQuery query (String.mk mg.g0) = s := Option.some.inj hs
        exact pyStrip_idem _
      | none =>
        cases h4 : scanYearAux none query.data with
        | some yg =>
          have hrec : searchParams nowYear query page
              = { p := page, date := none, year := some (String.mk yg),
                  artistName := some (cleanQuery query (String.mk yg)) } := by
            simp [searchParams, h1, h2, h3, h4]
          rw [hrec]
          refine ⟨rfl, ?_⟩
          intro s hs _
          obtain rfl : cleanQuery query (String.mk yg) = s := Option.some.inj hs
          exact pyStrip_idem _
        | none =>
          have hrec : searchParams nowYear query page
              = { p := page, date := none, year := none, artistName := some query } := by
            simp [searchParams, h1, h2, h3, h4]
          rw [hrec]
          refine ⟨rfl, ?_⟩
          intro s _ hd
          rcases hd with hd | hd <;> exact absurd rfl hd
    | none =>
      cases h4 : scanYearAux none query.data with
      | some yg =>
        have hrec : searchParams nowYear query page
            = { p := page, date := none, year := some (String.mk yg),
                artistName := some (cleanQuery query (String.mk yg)) } := by
          simp [searchParams, h1, h2, h4]
        rw [hrec]
        refine ⟨rfl, ?_⟩
        intro s hs _
        obtain rfl : cleanQuery query (String.mk yg) = s := Option.some.inj hs
        exact pyStrip_idem _
      | none =>
        have hrec : searchParams nowYear query page
            = { p := page, date := none, year := none, artistName := some query } := by
          simp [searchParams, h1, h2, h4]
        rw [hrec]
        refine ⟨rfl, ?_⟩
        intro s _ hd
        rcases hd with hd | hd <;> exact absurd rfl hd

/-- C5 witness: the amended theorem at a concrete query whose year pattern
matched, discharging both hypotheses there. -/
theorem artist_name_always_included_witness :
    ((searchParams 2025 "Phish 2023" 1).artistName).isSome = true
  ∧ pyStrip "Phish" = "Phish" :=
  ⟨(artist_name_always_included 2025 "Phish 2023" 1).1,
   (artist_name_always_included 2025 "Phish 2023" 1).2 "Phish" (by decide)
     (Or.inr (by decide))⟩

/-- C9: setlist search returns at most 20 normalized setlists, and on a
successful 2xx response it returns exactly the normalizations of the first
20 entries of the provider's setlist list, in provider order. -/
theorem setlist_search_cap20 :
    (∀ (apiKey : String) (nowYear : Nat)
        (fetch : SetlistParams → Except PyErr (HttpResp SetlistData))
        (query : String) (page : Nat),
        (search_setlists apiKey nowYear fetch query page).length ≤ 20)
  ∧ (∀ (apiKey : String) (nowYear : Nat)
        (fetch : SetlistParams → Except PyErr (HttpResp SetlistData))
        (query : String) (page : Nat) (st : Nat) (data : SetlistData),
        apiKey ≠ "" → 200 ≤ st → st ≤ 299 →
        fetch (searchParams nowYear query page) = Except.ok ⟨st, Except.ok data⟩ →
        search_setlists apiKey nowYear fetch query page
          = (data.setlist.take 20).map format_setlist) := by
  constructor
  · intro apiKey nowYear fetch query page
    unfold search_setlists
    split
    · simp
    · cases fetch (searchParams nowYear query page) with
      | error e => simp
      | ok r =>
        show (if r.status = 404 then []
          else if r.status < 200 ∨ 299 < r.status then []
          else match r.body with
            | Except.error _ => ([] : List FSetlist)
            | Except.ok data => (data.setlist.take 20).map format_setlist).length ≤ 20
        by_cases h404 : r.status = 404
        · simp [h404]
        · rw [if_neg h404]
          by_cases h2 : r.status < 200 ∨ 299 < r.status
          · simp [h2]
          · rw [if_neg h2]
            cases r.body with
            | error e => simp
            | ok data =>
              rw [List.length_map]
              exact List.length_take_le _ _
  · intro apiKey nowYear fetch query page st data hk h1 h2 hf
    unfold search_setlists
    rw [if_neg hk, hf]
    show (if st = 404 then []
      else if st < 200 ∨ 299 < st then []
      else (data.setlist.take 20).map format_setlist) = _
    rw [if_neg (by omega : ¬ st = 404), if_neg (by omega : ¬ (st < 200 ∨ 299 < st))]

/-- C9 witness: the cap and the exact-prefix equation at concrete inputs. -/
theorem setlist_search_cap20_witness :
    search_setlists "k" 0 (fun _ => Except.ok ⟨200, Except.ok ⟨[]⟩⟩) "q" 1
      = (((⟨[]⟩ : SetlistData).setlist).take 20).map format_setlist
  ∧ (search_setlists "" 0 (fun _ => Except.error PyErr.timeout) "q" 1).length ≤ 20 :=
  ⟨setlist_search_cap20.2 "k" 0 _ "q" 1 200 ⟨[]⟩ (by decide) (by omega) (by omega) rfl,
   setlist_search_cap20.1 "" 0 _ "q" 1⟩

end Freedify
